import Mathlib

/-!
Verification of the ATC monitoring pipeline (`ATC_wspr_proj`).

This file gives a shallow embedding, in Lean 4, of the parts of the
repository that the checked claims are about:

* the Python string primitives used by the LLM-response repair and parse
  routines (`str.rstrip`, `str.count`, `str.rfind`, `str.find`, slicing,
  `str.endswith`, `str.strip`), embedded over `List Char`;
* `OllamaCorrelator._attempt_json_repair`, `_parse_response` and
  `correlate` (src/analysis/ollama_correlator.py), with the external
  `json.loads` decoder and the HTTP transport as parameters, since both
  are external collaborators of the repository;
* `TranscriptionWorkerPool._worker_loop` (src/core/multi_channel_monitor.py),
  restricted to its per-job callback discipline;
* `MultiChannelATCMonitor.run_llm_correlation`'s correlation-id validation
  loop (src/core/multi_channel_monitor.py);
* `Aircraft.calculate_distance_and_bearing`, `OpenSkySource.
  get_aircraft_in_area` and `ADSBTracker.update_aircraft_positions`
  (src/tracking/adsb_tracker.py), over real numbers, with the HTTP fetch
  embedded as an `Except` value;
* `LiveATCRecorder.record_with_vad` and `detect_voice_activity`
  (src/audio/recorders.py) as a state machine folded over the chunk
  stream, plus `MIN_TRANSMISSION_LENGTH` from src/utils/config.py.

Python `float` arithmetic is embedded as real arithmetic; Python `int`
as `Int`/`Nat`; values that may be `None` as `Option`; fallible external
calls as `Except`/`Option`.
-/

/-! ## Python string primitives -/

/-- The characters Python's `str.strip`/`str.rstrip` remove by default. -/
def isPySpace (c : Char) : Bool :=
  c = ' ' || c = '\t' || c = '\n' || c = '\r' || c = '\x0b' || c = '\x0c'

/-- Python `s.rstrip()`. -/
def pyRstrip (s : String) : String :=
  ⟨(s.data.reverse.dropWhile isPySpace).reverse⟩

/-- Python `s.strip()`. -/
def pyStrip (s : String) : String :=
  ⟨((s.data.dropWhile isPySpace).reverse.dropWhile isPySpace).reverse⟩

/-- Python `s.count(c)` for a single-character needle `c`. -/
def pyCount (s : String) (c : Char) : ℕ :=
  s.data.count c

/-- Does the character list `p` occur at the start of `l`? -/
def beginsWith : List Char → List Char → Bool
  | [], _ => true
  | _ :: _, [] => false
  | a :: as, b :: bs => a = b && beginsWith as bs

/-- All indices of `t` at which the substring `p` occurs. -/
def occIdx (t p : String) : List ℕ :=
  (List.range (t.data.length + 1)).filter (fun i => beginsWith p.data (t.data.drop i))

/-- Python `t.rfind(p)`: index of the last occurrence of `p` in `t`;
`none` stands for Python's `-1`. -/
def pyRfind (t p : String) : Option ℕ :=
  (occIdx t p).getLast?

/-- Python `t.find(c)` for a single character; `none` stands for `-1`. -/
def pyFindChar (t : String) (c : Char) : Option ℕ :=
  t.data.indexOf? c

/-- Python `t.rfind(c)` for a single character; `none` stands for `-1`. -/
def pyRfindChar (t : String) (c : Char) : Option ℕ :=
  (t.data.length - 1 - ·) <$> t.data.reverse.indexOf? c

/-- Python `t[:n]`. -/
def pyTake (t : String) (n : ℕ) : String :=
  ⟨t.data.take n⟩

/-- Python `t[a:b]`. -/
def pySlice (t : String) (a b : ℕ) : String :=
  ⟨(t.data.take b).drop a⟩

/-- Python `t.endswith(p)`. -/
def pyEndsWith (t p : String) : Bool :=
  beginsWith p.data.reverse t.data.reverse

/-- Python `c * n` for a one-character string `c` and `n : ℤ`
(`n ≤ 0` yields the empty string). -/
def strRepeat (c : Char) (n : ℤ) : String :=
  ⟨List.replicate n.toNat c⟩

/-! ## `OllamaCorrelator._attempt_json_repair`
(src/analysis/ollama_correlator.py, lines 636-665) -/

/-- The terminator patterns the repair routine searches for, in source
order: `"}`, `']`, `},`, `],`, `}`.  Note the second pattern is an
apostrophe followed by a bracket, exactly as in the source. -/
def repairPatterns : List String :=
  ["\"\x7d", "\x27]", "\x7d,", "],", "\x7d"]

/-- `OllamaCorrelator._attempt_json_repair`.  `open_braces` and
`open_brackets` are Python ints, so they live in `ℤ`. -/
def attemptJsonRepair (text : String) : String :=
  let text := pyRstrip text
  let openBraces : ℤ := (pyCount text '\x7b' : ℤ) - (pyCount text '\x7d' : ℤ)
  let openBrackets : ℤ := (pyCount text '[' : ℤ) - (pyCount text ']' : ℤ)
  if openBraces > 0 ∨ openBrackets > 0 then
    let repairPoint := repairPatterns.foldl
      (fun rp p =>
        match pyRfind text p with
        | some pos => if 0 < pos then min rp (pos + p.data.length) else rp
        | none => rp)
      text.data.length
    let text := if repairPoint < text.data.length then pyTake text repairPoint else text
    text ++ strRepeat ']' openBrackets ++ strRepeat '\x7d' openBraces
  else text

/-- The position just after each pattern's last occurrence, for those
patterns whose last occurrence starts at a positive index — the
candidate trim points of `_attempt_json_repair`. -/
def termEnds (text : String) : List ℕ :=
  repairPatterns.filterMap (fun p =>
    match pyRfind text p with
    | some pos => if 0 < pos then some (pos + p.data.length) else none
    | none => none)

/-- The repair routine as the amended claim describes it: trim to the
minimum candidate trim point (not to the last terminator), then append
the closing brackets counted on the whole rstripped text. -/
def repairAmended (text : String) : String :=
  let text := pyRstrip text
  let openBraces : ℤ := (pyCount text '\x7b' : ℤ) - (pyCount text '\x7d' : ℤ)
  let openBrackets : ℤ := (pyCount text '[' : ℤ) - (pyCount text ']' : ℤ)
  if openBraces > 0 ∨ openBrackets > 0 then
    let repairPoint := (termEnds text).foldr min text.data.length
    let text := if repairPoint < text.data.length then pyTake text repairPoint else text
    text ++ strRepeat ']' openBrackets ++ strRepeat '\x7d' openBraces
  else text

/-- The terminator patterns as claim C5 states them: the second one is a
double quote followed by a bracket (the source instead has an
apostrophe followed by a bracket). -/
def claimPatterns : List String :=
  ["\"\x7d", "\"]", "\x7d,", "],", "\x7d"]

/-- The position just after the last plausible element terminator,
searching backward, as claim C5 describes the trim point. -/
def claimTermEnd (text : String) : Option ℕ :=
  let ends := claimPatterns.filterMap (fun p => (pyRfind text p).map (p.data.length + ·))
  match ends with
  | [] => none
  | e :: es => some (es.foldr max e)

/-- The repair routine exactly as claim C5 states it: trim to the
position just after the last plausible element terminator, then append
the missing closing brackets in order. -/
def claimRepair (text : String) : String :=
  let text := pyRstrip text
  let openBraces : ℤ := (pyCount text '\x7b' : ℤ) - (pyCount text '\x7d' : ℤ)
  let openBrackets : ℤ := (pyCount text '[' : ℤ) - (pyCount text ']' : ℤ)
  if openBraces > 0 ∨ openBrackets > 0 then
    let text := match claimTermEnd text with
      | some rp => pyTake text rp
      | none => text
    text ++ strRepeat ']' openBrackets ++ strRepeat '\x7d' openBraces
  else text

/-! ## JSON values

`json.loads` is the Python standard library, an external collaborator
of this repository; JSON values it can return are modelled by `JValue`
(numbers as rationals, objects as ordered field lists, exactly the
shape `dict` preserves), and the decoder itself is a parameter of the
functions that call it. -/

inductive JValue : Type where
  | jnull : JValue
  | jbool : Bool → JValue
  | jnum : ℚ → JValue
  | jstr : String → JValue
  | jarr : List JValue → JValue
  | jobj : List (String × JValue) → JValue

/-- A decoded top-level JSON object (a Python `dict`): ordered fields. -/
abbrev JObj := List (String × JValue)

/-- First-match key lookup in a decoded object (Python `dict` access on
objects whose keys are unique). -/
def lookupJ : JObj → String → Option JValue
  | [], _ => none
  | (k, v) :: fs, key => if k = key then some v else lookupJ fs key

/-- Python `key in parsed`. -/
def hasKeyJ (fs : JObj) (key : String) : Bool :=
  (lookupJ fs key).isSome

/-- Python `parsed[key] = v`: replace in place if present, else append. -/
def setKeyJ (fs : JObj) (key : String) (v : JValue) : JObj :=
  if hasKeyJ fs key then fs.map (fun p => if p.1 = key then (key, v) else p)
  else fs ++ [(key, v)]

/-! ## `OllamaCorrelator._parse_response`
(src/analysis/ollama_correlator.py, lines 667-691) -/

/-- The error record `_parse_response` returns when it cannot decode. -/
def errorRecord (text : String) : JObj :=
  [("error", JValue.jstr "Failed to parse LLM response"), ("raw", JValue.jstr text)]

/-- The three default insertions after a successful decode: missing
`correlations` and `alerts` become empty lists, a missing `summary`
becomes the string "Analysis complete". -/
def withDefaults (fs : JObj) : JObj :=
  let fs := if hasKeyJ fs "correlations" then fs else fs ++ [("correlations", JValue.jarr [])]
  let fs := if hasKeyJ fs "alerts" then fs else fs ++ [("alerts", JValue.jarr [])]
  if hasKeyJ fs "summary" then fs else fs ++ [("summary", JValue.jstr "Analysis complete")]

/-- `OllamaCorrelator._parse_response`, with the `json.loads` decoder as
a parameter (`loads s = none` models a `JSONDecodeError`; a successful
decode of a brace-delimited slice is a `dict`, hence a `JObj`).
`start` is Python's `text.find("\x7b")`, `end` is `text.rfind("\x7d") + 1`;
decoding is attempted only when `start != -1 and end > start`. -/
def parseResponse (loads : String → Option JObj) (text : String) : JObj :=
  match pyFindChar text '\x7b', pyRfindChar text '\x7d' with
  | some s, some e =>
      if s < e + 1 then
        match loads (pySlice text s (e + 1)) with
        | some fs => withDefaults fs
        | none => errorRecord text
      else errorRecord text
  | _, _ => errorRecord text

/-! ## `OllamaCorrelator.correlate`
(src/analysis/ollama_correlator.py, lines 503-634) -/

/-- An ADS-B contact handed to the correlator
(`ADSBContact` dataclass, src/analysis/ollama_correlator.py). -/
structure ADSBContact where
  icao : String
  callsign : Option String
  altitude : ℤ
  heading : ℤ
  speed : ℤ
  lat : ℝ
  lon : ℝ
  squawk : Option String
  timestamp : ℝ

/-- An ATC transmission handed to the correlator
(`ATCTransmission` dataclass, src/analysis/ollama_correlator.py). -/
structure ATCTransmission where
  timestamp : ℝ
  text : String
  frequency : String
  channel_name : String
  audio_duration : ℝ
  transcription_delay : ℝ

/-- The reply of the external generation endpoint
(`\x7bresponse, eval_count, prompt_eval_count\x7d`). -/
structure LLMReply where
  response : String
  evalCount : ℤ
  promptEvalCount : ℤ

/-- Outcome of the HTTP POST to the generation endpoint: the three
exception classes `correlate` distinguishes, or a reply. -/
inductive HttpOutcome where
  | timeout : HttpOutcome
  | connError : HttpOutcome
  | exc : String → HttpOutcome
  | ok : LLMReply → HttpOutcome

/-- `alert.get("confidence", 0) >= 0.7` for one alert.  `none` models a
Python exception (`.get` on a non-dict, or comparing a non-number to a
float), which the enclosing `try` of `correlate` turns into an error
record; Python booleans are ints, so they do compare. -/
def alertKeep (a : JValue) : Option Bool :=
  match a with
  | JValue.jobj fs =>
      match lookupJ fs "confidence" with
      | some (JValue.jnum q) => some (decide ((7 : ℚ) / 10 ≤ q))
      | some (JValue.jbool b) => some (decide ((7 : ℚ) / 10 ≤ if b then 1 else 0))
      | none => some (decide ((7 : ℚ) / 10 ≤ (0 : ℚ)))
      | some _ => none
  | _ => none

/-- The list comprehension filtering low-confidence alerts; `none` when
some element raises. -/
def filterAlertList : List JValue → Option (List JValue)
  | [] => some []
  | a :: rest =>
      match alertKeep a, filterAlertList rest with
      | some true, some r => some (a :: r)
      | some false, some r => some r
      | _, _ => none

/-- The alert post-filter of `correlate`: applied only when the parsed
result has an `alerts` key holding a list. -/
def filterAlerts (parsed : JObj) : Option JObj :=
  match lookupJ parsed "alerts" with
  | some (JValue.jarr l) => (filterAlertList l).map (fun l2 => setKeyJ parsed "alerts" (JValue.jarr l2))
  | _ => some parsed

/-- The result record of the `except Exception` branch of `correlate`;
the message (Python `str(exc)`) is kept abstract. -/
def excRecord (msg : String) : JObj :=
  [("error", JValue.jstr msg), ("raw", JValue.jstr "")]

/-- `OllamaCorrelator.correlate`.  Returns the result dict and whether
an HTTP request to the generation endpoint was made.  The `json.loads`
decoder and the HTTP transport are parameters; prompt assembly and the
statistics/log side effects do not influence the returned record and
are not modelled. -/
def correlate (loads : String → Option JObj) (http : HttpOutcome)
    (maxResponseTokens : ℤ) (adsbData : List ADSBContact)
    (transmissions : List ATCTransmission) : JObj × Bool :=
  if transmissions.isEmpty then
    ([("correlations", JValue.jarr []), ("alerts", JValue.jarr []),
      ("summary", JValue.jstr "No transmissions")], false)
  else
    match http with
    | HttpOutcome.timeout => ([("error", JValue.jstr "LLM request timed out"), ("raw", JValue.jstr "")], true)
    | HttpOutcome.connError => ([("error", JValue.jstr "Cannot connect to Ollama"), ("raw", JValue.jstr "")], true)
    | HttpOutcome.exc msg => (excRecord msg, true)
    | HttpOutcome.ok reply =>
        let responseText :=
          if reply.evalCount ≥ maxResponseTokens - 50 then attemptJsonRepair reply.response
          else if ¬ pyEndsWith (pyRstrip reply.response) "\x7d" then attemptJsonRepair reply.response
          else reply.response
        let parsed := parseResponse loads responseText
        if hasKeyJ parsed "error" then (parsed, true)
        else
          match filterAlerts parsed with
          | some filtered => (filtered, true)
          | none => (excRecord "TypeError", true)

/-! ## `MultiChannelATCMonitor.run_llm_correlation` correlation loop
(src/core/multi_channel_monitor.py, lines 480-498) -/

/-- `correlation.get('transmission_id')` followed by the
`isinstance(tx_id, int)` test: the id as a Python int when it is one
(JSON integers decode to Python ints, identified here with
denominator-one rationals; Python booleans are ints too), `none`
otherwise. -/
def txIdOf : JValue → Option ℤ
  | JValue.jobj fs =>
      (match lookupJ fs "transmission_id" with
       | some (JValue.jnum q) => if q.den = 1 then some q.num else none
       | some (JValue.jbool b) => some (if b then 1 else 0)
       | _ => none)
  | _ => none

/-- The correlations `run_llm_correlation` acts upon, each with the
transmission id it extracted: the loop skips any correlation whose
`transmission_id` is not an int, and acts only under
`0 <= tx_id < len(recent_transmissions)`. -/
def processedCorrelations (correlations : List JValue) (numRecent : ℕ) : List (JValue × ℤ) :=
  correlations.filterMap (fun c =>
    match txIdOf c with
    | some v => if 0 ≤ v ∧ v < (numRecent : ℤ) then some (c, v) else none
    | none => none)

/-! ## `TranscriptionWorkerPool._worker_loop`
(src/core/multi_channel_monitor.py, lines 71-144)

A job is `(audio_file, channel_info, callback)`; per job the worker
calls `transcriber.transcribe_audio_internal(audio_file)` and invokes
the callback only under `if result and result.get('text', '').strip():`
— `transcribe_audio_internal` (src/transcription/transcriber.py, lines
245-338) returns either a non-empty payload dict or `None` on error. -/

/-- The payload returned by `transcribe_audio_internal` on success; only
the `text` field decides whether the callback fires (the dict itself is
non-empty, hence truthy).  Segments and metadata are carried opaquely. -/
structure TranscriptionPayload where
  text : String

/-- Number of callback invocations the worker loop performs for one job
whose model invocation produced `result` (with `none` for a `None`
return) when a callback `hasCallback` was supplied. -/
def callbackCount (result : Option TranscriptionPayload) (hasCallback : Bool) : ℕ :=
  match result with
  | none => 0
  | some r => if pyStrip r.text ≠ "" then (if hasCallback then 1 else 0) else 0

/-- The worker loop over a queue of submitted jobs (audio file paths):
the per-job callback invocation counts, in submission order. -/
def runWorker (transcribe : String → Option TranscriptionPayload)
    (hasCallback : Bool) (jobs : List String) : List ℕ :=
  jobs.map (fun j => callbackCount (transcribe j) hasCallback)

/-- The condition under which the worker loop fires the callback, as the
amended claim C1 states it: the model returned a payload whose stripped
text is non-empty, and a callback was supplied. -/
def callbackFires (result : Option TranscriptionPayload) (hasCallback : Bool) : Bool :=
  (match result with
   | none => false
   | some r => pyStrip r.text ≠ "") && hasCallback

/-! ## ADS-B tracking (src/tracking/adsb_tracker.py) -/

/-- One OpenSky state vector, with the field indices the source reads:
0 = icao24, 1 = callsign, 3 = time_position, 5 = longitude,
6 = latitude, 8 = on_ground, 9 = velocity, 10 = true_track,
11 = vertical_rate, 13 = geo_altitude. -/
structure StateVector where
  icao24 : String
  callsign : Option String
  timePosition : Option ℤ
  longitude : Option ℝ
  latitude : Option ℝ
  onGround : Bool
  velocity : Option ℝ
  trueTrack : Option ℝ
  verticalRate : Option ℝ
  geoAltitude : Option ℝ

/-- The `Aircraft` class (src/tracking/adsb_tracker.py, lines 12-80).
The `timestamp` datetime is not modelled (no claim reads it);
`distance_from_airport`/`bearing_from_airport` start as `None`. -/
structure Aircraft where
  icao24 : String
  callsign : String
  latitude : ℝ
  longitude : ℝ
  altitude : ℝ
  track : ℝ
  ground_speed : ℝ
  vertical_rate : ℝ
  on_ground : Bool
  distance_from_airport : Option ℝ := none
  bearing_from_airport : Option ℝ := none

/-- Degrees to radians (`math.radians`). -/
noncomputable def radiansOf (d : ℝ) : ℝ := d * Real.pi / 180

/-- Radians to degrees (`math.degrees`). -/
noncomputable def degreesOf (r : ℝ) : ℝ := r * 180 / Real.pi

/-- Python `math.atan2(y, x)`. -/
noncomputable def atan2 (y x : ℝ) : ℝ :=
  if 0 < x then Real.arctan (y / x)
  else if x < 0 ∧ 0 ≤ y then Real.arctan (y / x) + Real.pi
  else if x < 0 ∧ y < 0 then Real.arctan (y / x) - Real.pi
  else if x = 0 ∧ 0 < y then Real.pi / 2
  else if x = 0 ∧ y < 0 then -(Real.pi / 2)
  else 0

/-- Python float `a % m` for `0 < m`: `a - m * floor(a / m)`. -/
noncomputable def pyFmod (a m : ℝ) : ℝ := a - m * ⌊a / m⌋

/-- Earth radius in nautical miles, as in
`Aircraft.calculate_distance_and_bearing`. -/
noncomputable def earthRadiusNM : ℝ := 3440.065

/-- The haversine great-circle distance computed by
`Aircraft.calculate_distance_and_bearing`: from the reference point
`(refLat, refLon)` to `(lat2, lon2)`, all in degrees. -/
noncomputable def haversineDistance (refLat refLon lat2 lon2 : ℝ) : ℝ :=
  let lat1 := radiansOf refLat
  let lon1 := radiansOf refLon
  let lat2 := radiansOf lat2
  let lon2 := radiansOf lon2
  let dlat := lat2 - lat1
  let dlon := lon2 - lon1
  let a := Real.sin (dlat / 2) ^ 2 +
    Real.cos lat1 * Real.cos lat2 * Real.sin (dlon / 2) ^ 2
  let c := 2 * Real.arcsin (Real.sqrt a)
  earthRadiusNM * c

/-- The initial bearing computed by
`Aircraft.calculate_distance_and_bearing`, already wrapped into
`[0, 360)` by `(bearing + 360) % 360`. -/
noncomputable def initialBearing (refLat refLon lat2 lon2 : ℝ) : ℝ :=
  let lat1 := radiansOf refLat
  let lon1 := radiansOf refLon
  let lat2 := radiansOf lat2
  let lon2 := radiansOf lon2
  let dlon := lon2 - lon1
  let y := Real.sin dlon * Real.cos lat2
  let x := Real.cos lat1 * Real.sin lat2 -
    Real.sin lat1 * Real.cos lat2 * Real.cos dlon
  let bearing := degreesOf (atan2 y x)
  pyFmod (bearing + 360) 360

/-- `Aircraft.calculate_distance_and_bearing`: stores the distance and
bearing on the aircraft and returns the pair. -/
noncomputable def calculateDistanceAndBearing (ac : Aircraft) (refLat refLon : ℝ) :
    Aircraft × ℝ × ℝ :=
  let d := haversineDistance refLat refLon ac.latitude ac.longitude
  let b := initialBearing refLat refLon ac.latitude ac.longitude
  ({ ac with distance_from_airport := some d, bearing_from_airport := some b }, d, b)

/-- The `Aircraft(...)` construction inside
`OpenSkySource.get_aircraft_in_area`, given a state vector whose
latitude and longitude are present: unit conversions ×3.28084 (m → ft),
×1.94384 (m/s → kn), ×196.85 (m/s → ft/min), `None` fields defaulted to
0, the callsign `state[1] or ""` then stripped by `Aircraft.__init__`. -/
def aircraftOfState (s : StateVector) (la lo : ℝ) : Aircraft :=
  { icao24 := s.icao24
    callsign := pyStrip ((s.callsign.getD ""))
    latitude := la
    longitude := lo
    altitude := match s.geoAltitude with
      | some v => v * 3.28084
      | none => 0
    track := s.trueTrack.getD 0
    ground_speed := match s.velocity with
      | some v => v * 1.94384
      | none => 0
    vertical_rate := match s.verticalRate with
      | some v => v * 196.85
      | none => 0
    on_ground := s.onGround }

open Classical in
/-- The per-state-vector body of `OpenSkySource.get_aircraft_in_area`:
skip unless both longitude (`state[5]`) and latitude (`state[6]`) are
present, build the aircraft, compute distance and bearing from the
query point, and keep it only when
`aircraft.distance_from_airport <= radius_nm`. -/
noncomputable def processState (lat lon radiusNm : ℝ) (s : StateVector) : Option Aircraft :=
  match s.longitude, s.latitude with
  | some lo, some la =>
      let ac := aircraftOfState s la lo
      let step := calculateDistanceAndBearing ac lat lon
      if step.2.1 ≤ radiusNm then some step.1 else none
  | _, _ => none

/-- A network/HTTP failure of the OpenSky request
(`requests.exceptions.RequestException`). -/
structure RequestError where
  message : String

/-- `OpenSkySource.get_aircraft_in_area`, with the HTTP transport
embedded as an `Except` value: a successful response carries the parsed
`states` list (an absent or null `states` key is the empty list); on a
request exception the function logs and returns `[]`. -/
noncomputable def getAircraftInArea (fetch : Except RequestError (List StateVector))
    (lat lon radiusNm : ℝ) : List Aircraft :=
  match fetch with
  | Except.error _ => []
  | Except.ok states => states.filterMap (processState lat lon radiusNm)

/-- Python dict insertion: replace in place when the key exists,
append otherwise. -/
def dictInsert {α : Type} (m : List (String × α)) (k : String) (v : α) : List (String × α) :=
  if m.any (fun p => p.1 = k) then m.map (fun p => if p.1 = k then (k, v) else p)
  else m ++ [(k, v)]

/-- The dict comprehension `\x7bac.icao24: ac for ac in aircraft_list\x7d`. -/
def keyByIcao (l : List Aircraft) : List (String × Aircraft) :=
  l.foldl (fun m ac => dictInsert m ac.icao24 ac) []

/-- `ADSBTracker`: the current-contacts snapshot keyed by icao24
(`aircraft_history` is never read by the claims). -/
structure ADSBTracker where
  current_aircraft : List (String × Aircraft)

/-- `ADSBTracker.update_aircraft_positions`: fetch, rebuild the keyed
snapshot from the result, and return the list. -/
noncomputable def updateAircraftPositions (tracker : ADSBTracker)
    (fetch : Except RequestError (List StateVector)) (lat lon radiusNm : ℝ) :
    ADSBTracker × List Aircraft :=
  let aircraftList := getAircraftInArea fetch lat lon radiusNm
  ({ current_aircraft := keyByIcao aircraftList }, aircraftList)

/-! ## The VAD segment recorder
(src/audio/recorders.py, `LiveATCRecorder.record_with_vad` lines 89-158,
`detect_voice_activity` lines 55-66; constants from src/utils/config.py) -/

/-- `MIN_TRANSMISSION_LENGTH` (src/utils/config.py line 111):
"Minimum seconds to save a transmission". -/
noncomputable def MIN_TRANSMISSION_LENGTH : ℝ := 1.0

/-- `SAMPLE_RATE` (src/utils/config.py line 104). -/
def SAMPLE_RATE : ℕ := 16000

/-- A chunk of signed 16-bit samples as read from the decoder's stdout
(`chunk_size = 1024 * 2` bytes, i.e. up to 1024 samples). -/
abbrev Chunk := List ℤ

open Classical in
/-- `LiveATCRecorder.detect_voice_activity`: RMS over the int16 samples
normalised by 32768, compared against the threshold; empty input is
never voice. -/
noncomputable def detectVoiceActivity (vadThreshold : ℝ) (chunk : Chunk) : Bool :=
  if chunk.isEmpty then false
  else
    let rms := Real.sqrt (((chunk.map (fun x => ((x : ℝ)) ^ 2)).sum) / chunk.length)
    decide (vadThreshold < rms / 32768)

/-- The recorder's in-loop state: whether a transmission is being
recorded, the accumulated chunks, the silence-chunk counter, and the
segments saved so far. -/
structure RecorderState where
  recording : Bool
  current : List Chunk
  silence : ℕ
  saved : List (List Chunk)

open Classical in
/-- One iteration of the `record_with_vad` main loop on a non-empty
chunk read from the stream. -/
noncomputable def vadStep (vadThreshold : ℝ) (silenceChunksThreshold : ℕ)
    (st : RecorderState) (chunk : Chunk) : RecorderState :=
  if detectVoiceActivity vadThreshold chunk then
    let cur := if st.recording then st.current else []
    { st with recording := true, current := cur ++ [chunk], silence := 0 }
  else if st.recording then
    let cur := st.current ++ [chunk]
    let sc := st.silence + 1
    if silenceChunksThreshold ≤ sc then
      { recording := false, current := [], silence := 0, saved := st.saved ++ [cur] }
    else { st with current := cur, silence := sc }
  else st

open Classical in
/-- `LiveATCRecorder.record_with_vad` over the list of chunks the
decoder's stdout yields before EOF: the WAV segments written, in order.
`silence_chunks_threshold = int(silence_duration * chunks_per_second)`
with `chunks_per_second = sample_rate / 1024`; the `finally` block
flushes a still-open transmission. -/
noncomputable def recordWithVad (vadThreshold silenceDuration : ℝ) (sampleRate : ℕ)
    (chunks : List Chunk) : List (List Chunk) :=
  let silenceChunksThreshold := (⌊silenceDuration * ((sampleRate : ℝ) / 1024)⌋).toNat
  let final := chunks.foldl (vadStep vadThreshold silenceChunksThreshold)
    { recording := false, current := [], silence := 0, saved := [] }
  final.saved ++ (if final.recording ∧ final.current ≠ [] then [final.current] else [])

/-- Audio duration in seconds of a saved segment: total samples over the
sample rate (the WAV is written with `setframerate(sample_rate)` and
two bytes per sample). -/
noncomputable def segmentDuration (sampleRate : ℕ) (seg : List Chunk) : ℝ :=
  ((seg.map List.length).sum : ℝ) / sampleRate

/-! ## Remaining configuration constants and concrete instances used by
the theorems below -/

/-- `VAD_THRESHOLD` (src/utils/config.py line 109). -/
noncomputable def VAD_THRESHOLD : ℝ := 0.1

/-- `SILENCE_DURATION` (src/utils/config.py line 110). -/
noncomputable def SILENCE_DURATION : ℝ := 3.0

/-- A 1024-sample chunk of full-scale int16 audio (64 ms at 16 kHz):
loud enough that `detect_voice_activity` reports voice. -/
def chunkFull : Chunk := List.replicate 1024 (32767 : ℤ)

/-- A truncated response: `\x7b"corr":[\x7b"a":1\x7d,\x7b"b":2`.  Its last
element terminator is the `\x7d,` ending at index 17, yet the code's
minimum rule trims at index 16. -/
def exC5 : String := "\x7b\"corr\":[\x7b\"a\":1\x7d,\x7b\"b\":2"

/-- A `json.loads` model for the single input `"\x7b\x7d"`: the empty
object, exactly what Python's `json.loads` returns there. -/
def loadsEmptyObj : String → Option JObj :=
  fun s => if s = "\x7b\x7d" then some [] else none

/-- A complete generation-endpoint response whose single correlation
carries `transmission_id` 7. -/
def respOutOfRange : String :=
  "\x7b\"correlations\":[\x7b\"transmission_id\":7\x7d],\"alerts\":[],\"summary\":\"s\"\x7d"

/-- What `json.loads` returns on `respOutOfRange`. -/
def objOutOfRange : JObj :=
  [("correlations", JValue.jarr [JValue.jobj [("transmission_id", JValue.jnum 7)]]),
   ("alerts", JValue.jarr []), ("summary", JValue.jstr "s")]

/-- A `json.loads` model agreeing with Python on the single input
`respOutOfRange`. -/
def loadsOutOfRange : String → Option JObj :=
  fun s => if s = respOutOfRange then some objOutOfRange else none

/-- A one-element transmission batch for the correlate theorems. -/
noncomputable def txSample : ATCTransmission :=
  { timestamp := 0, text := "t", frequency := "118.7", channel_name := "Tower",
    audio_duration := 0, transcription_delay := 0 }

/-- A concrete tracked aircraft for the C2 counterexample. -/
noncomputable def acPrev : Aircraft :=
  { icao24 := "a1b2c3", callsign := "DAL2617", latitude := 44.9, longitude := -93.2,
    altitude := 10000, track := 90, ground_speed := 420, vertical_rate := 0,
    on_ground := false }

/-- A tracker whose snapshot holds one contact before the failing poll. -/
noncomputable def trackerPrev : ADSBTracker :=
  { current_aircraft := [("a1b2c3", acPrev)] }

/-- A state vector at the reference point itself (zero distance). -/
def stateAtRef : StateVector :=
  { icao24 := "abc123", callsign := none, timePosition := none,
    longitude := some 0, latitude := some 0, onGround := false,
    velocity := none, trueTrack := none, verticalRate := none, geoAltitude := none }

/-- The aircraft `get_aircraft_in_area` builds from `stateAtRef` with
reference `(0, 0)`. -/
noncomputable def acAtRef : Aircraft :=
  (calculateDistanceAndBearing (aircraftOfState stateAtRef 0 0) 0 0).1

/-! ## Helper lemmas -/

lemma foldr_min_swap (L : List ℕ) (a b : ℕ) :
    L.foldr min (min a b) = min b (L.foldr min a) := by
  induction L with
  | nil => exact min_comm a b
  | cons x L ih =>
    simp only [List.foldr_cons, ih]
    rw [min_left_comm]

lemma foldl_optMin {α : Type} (g : α → Option ℕ) :
    ∀ (l : List α) (init : ℕ),
      l.foldl (fun rp x => match g x with | some n => min rp n | none => rp) init
        = (l.filterMap g).foldr min init := by
  intro l
  induction l with
  | nil => intro init; rfl
  | cons x l ih =>
    intro init
    simp only [List.foldl_cons, List.filterMap_cons]
    cases hg : g x with
    | none => simp only [hg]; exact ih init
    | some n =>
      simp only [hg, List.foldr_cons]
      rw [ih (min init n), foldr_min_swap]

lemma repairPoint_eq (text : String) :
    repairPatterns.foldl
      (fun rp p => match pyRfind text p with
        | some pos => if 0 < pos then min rp (pos + p.data.length) else rp
        | none => rp)
      text.data.length
    = (termEnds text).foldr min text.data.length := by
  have hb : (fun (rp : ℕ) (p : String) => match pyRfind text p with
        | some pos => if 0 < pos then min rp (pos + p.data.length) else rp
        | none => rp)
      = (fun (rp : ℕ) (p : String) =>
          match (match pyRfind text p with
            | some pos => if 0 < pos then some (pos + p.data.length) else none
            | none => none) with
          | some n => min rp n
          | none => rp) := by
    funext rp p
    cases pyRfind text p with
    | none => rfl
    | some pos =>
      by_cases h : 0 < pos <;> simp [h]
  rw [hb]
  rw [foldl_optMin (fun p => match pyRfind text p with
    | some pos => if 0 < pos then some (pos + p.data.length) else none
    | none => none) repairPatterns text.data.length]
  rfl

lemma count_dropWhile_ne (c : Char) (hc : isPySpace c = false) :
    ∀ l : List Char, (l.dropWhile isPySpace).count c = l.count c := by
  intro l
  induction l with
  | nil => rfl
  | cons a l ih =>
    by_cases h : isPySpace a
    · have hne : a ≠ c := by
        intro he; rw [he, hc] at h; cases h
      rw [List.dropWhile_cons_of_pos h, ih, List.count_cons]
      simp [hne]
    · rw [List.dropWhile_cons_of_neg h]

lemma pyRstrip_count (s : String) (c : Char) (hc : isPySpace c = false) :
    pyCount (pyRstrip s) c = pyCount s c := by
  unfold pyRstrip pyCount
  show ((s.data.reverse.dropWhile isPySpace).reverse).count c = s.data.count c
  rw [List.count_reverse, count_dropWhile_ne c hc, List.count_reverse]

lemma dropWhile_idem (p : Char → Bool) :
    ∀ l : List Char, (l.dropWhile p).dropWhile p = l.dropWhile p := by
  intro l
  induction l with
  | nil => rfl
  | cons a l ih =>
    by_cases h : p a
    · rw [List.dropWhile_cons_of_pos h, ih]
    · rw [List.dropWhile_cons_of_neg h, List.dropWhile_cons_of_neg h]

lemma pyRstrip_idem (s : String) : pyRstrip (pyRstrip s) = pyRstrip s := by
  unfold pyRstrip
  show (⟨((((s.data.reverse.dropWhile isPySpace).reverse : List Char)).reverse.dropWhile isPySpace).reverse⟩ : String) = _
  rw [List.reverse_reverse, dropWhile_idem]

lemma lookupJ_append (xs ys : JObj) (k : String) :
    lookupJ (xs ++ ys) k =
      match lookupJ xs k with
      | some w => some w
      | none => lookupJ ys k := by
  induction xs with
  | nil => rfl
  | cons p xs ih =>
    cases p with
    | mk k3 v3 =>
      by_cases h : k3 = k
      · simp [lookupJ, h]
      · simp only [List.cons_append, lookupJ, if_neg h]
        exact ih

lemma withDefaults_lookup (fs : JObj) :
    lookupJ (withDefaults fs) "correlations" =
      some ((lookupJ fs "correlations").getD (JValue.jarr [])) ∧
    lookupJ (withDefaults fs) "alerts" =
      some ((lookupJ fs "alerts").getD (JValue.jarr [])) ∧
    lookupJ (withDefaults fs) "summary" =
      some ((lookupJ fs "summary").getD (JValue.jstr "Analysis complete")) := by
  unfold withDefaults hasKeyJ
  cases hc : lookupJ fs "correlations" with
  | some vc =>
    cases ha : lookupJ fs "alerts" with
    | some va =>
      cases hs : lookupJ fs "summary" with
      | some vs => simp [hc, ha, hs]
      | none => simp [hc, ha, hs, lookupJ_append, lookupJ]
    | none =>
      cases hs : lookupJ fs "summary" with
      | some vs => simp [hc, ha, hs, lookupJ_append, lookupJ]
      | none => simp [hc, ha, hs, lookupJ_append, lookupJ]
  | none =>
    cases ha : lookupJ fs "alerts" with
    | some va =>
      cases hs : lookupJ fs "summary" with
      | some vs => simp [hc, ha, hs, lookupJ_append, lookupJ]
      | none => simp [hc, ha, hs, lookupJ_append, lookupJ]
    | none =>
      cases hs : lookupJ fs "summary" with
      | some vs => simp [hc, ha, hs, lookupJ_append, lookupJ]
      | none => simp [hc, ha, hs, lookupJ_append, lookupJ]

lemma callbackCount_fires (res : Option TranscriptionPayload) (hb : Bool) :
    callbackCount res hb = if callbackFires res hb then 1 else 0 := by
  cases res with
  | none => cases hb <;> rfl
  | some r =>
    by_cases h : pyStrip r.text = "" <;> cases hb <;>
      simp [callbackCount, callbackFires, h]

lemma dictInsert_mem {α : Type} (m : List (String × α)) (k : String) (v : α)
    (p : String × α) (h : p ∈ dictInsert m k v) : p ∈ m ∨ p = (k, v) := by
  unfold dictInsert at h
  by_cases hc : m.any (fun q => q.1 = k)
  · rw [if_pos hc] at h
    obtain ⟨q, hq, he⟩ := List.mem_map.mp h
    by_cases hk : q.1 = k
    · right; rw [if_pos hk] at he; exact he.symm
    · left; rw [if_neg hk] at he; exact he ▸ hq
  · rw [if_neg hc] at h
    rcases List.mem_append.mp h with h1 | h1
    · exact Or.inl h1
    · exact Or.inr (List.mem_singleton.mp h1)

lemma dictInsert_keys {α : Type} (m : List (String × α)) (k : String) (v : α) :
    (dictInsert m k v).map Prod.fst = m.map Prod.fst ∨
    (dictInsert m k v).map Prod.fst = m.map Prod.fst ++ [k] := by
  unfold dictInsert
  by_cases hc : m.any (fun q => q.1 = k)
  · left
    rw [if_pos hc, List.map_map]
    refine List.map_congr_left ?_
    intro p _
    by_cases hk : p.1 = k
    · simp [hk]
    · simp [hk]
  · right
    rw [if_neg hc]
    simp

lemma dictInsert_keys_nodup {α : Type} (m : List (String × α)) (k : String) (v : α)
    (h : (m.map Prod.fst).Nodup) : ((dictInsert m k v).map Prod.fst).Nodup := by
  rcases dictInsert_keys m k v with he | he
  · rw [he]; exact h
  · rw [he]
    unfold dictInsert at he
    by_cases hc : m.any (fun q => q.1 = k)
    · exfalso
      rw [if_pos hc] at he
      have := congrArg List.length he
      simp at this
    · have hk : k ∉ m.map Prod.fst := by
        intro hmem
        obtain ⟨p, hp, hpk⟩ := List.mem_map.mp hmem
        exact hc (List.any_eq_true.mpr ⟨p, hp, by simp [hpk]⟩)
      simp [List.nodup_append, h, hk]

lemma keyByIcao_fold (S : List Aircraft) :
    ∀ (l : List Aircraft) (m : List (String × Aircraft)),
      (∀ a ∈ l, a ∈ S) →
      (∀ p ∈ m, p.1 = p.2.icao24 ∧ p.2 ∈ S) →
      (m.map Prod.fst).Nodup →
      ((l.foldl (fun acc ac => dictInsert acc ac.icao24 ac) m).map Prod.fst).Nodup ∧
      ∀ p ∈ l.foldl (fun acc ac => dictInsert acc ac.icao24 ac) m,
        p.1 = p.2.icao24 ∧ p.2 ∈ S := by
  intro l
  induction l with
  | nil => intro m _ hm hn; exact ⟨hn, hm⟩
  | cons a l ih =>
    intro m hsub hm hn
    simp only [List.foldl_cons]
    refine ih (dictInsert m a.icao24 a) (fun b hb => hsub b (List.mem_cons_of_mem a hb)) ?_ ?_
    · intro p hp
      rcases dictInsert_mem m a.icao24 a p hp with h | h
      · exact hm p h
      · subst h
        exact ⟨rfl, hsub a (List.mem_cons_self a l)⟩
    · exact dictInsert_keys_nodup m a.icao24 a hn

lemma keyByIcao_spec (l : List Aircraft) :
    ((keyByIcao l).map Prod.fst).Nodup ∧
    ∀ p ∈ keyByIcao l, p.1 = p.2.icao24 ∧ p.2 ∈ l := by
  have := keyByIcao_fold l l [] (fun a ha => ha)
    (fun p hp => absurd hp (List.not_mem_nil p)) List.nodup_nil
  simpa [keyByIcao] using this

lemma processState_some (lat lon r : ℝ) (s : StateVector) (ac : Aircraft)
    (h : processState lat lon r s = some ac) :
    s.latitude.isSome ∧ s.longitude.isSome ∧
    haversineDistance lat lon ac.latitude ac.longitude ≤ r ∧
    ac.icao24 = s.icao24 := by
  unfold processState at h
  cases hlo : s.longitude with
  | none => rw [hlo] at h; cases h
  | some lo =>
    cases hla : s.latitude with
    | none => rw [hlo, hla] at h; cases h
    | some la =>
      rw [hlo, hla] at h
      simp only at h
      split_ifs at h with hd
      · cases h
        refine ⟨by simp [hla], by simp [hlo], ?_, rfl⟩
        simpa [calculateDistanceAndBearing, aircraftOfState] using hd

lemma haversine_nonneg (a b c d : ℝ) : 0 ≤ haversineDistance a b c d := by
  unfold haversineDistance earthRadiusNM
  have h1 : 0 ≤ Real.arcsin (Real.sqrt
      (Real.sin ((radiansOf c - radiansOf a) / 2) ^ 2 +
        Real.cos (radiansOf a) * Real.cos (radiansOf c) *
          Real.sin ((radiansOf d - radiansOf b) / 2) ^ 2)) :=
    Real.arcsin_nonneg.mpr (Real.sqrt_nonneg _)
  nlinarith

lemma pyFmod_mem (x : ℝ) : 0 ≤ pyFmod x 360 ∧ pyFmod x 360 < 360 := by
  unfold pyFmod
  have he : x - 360 * ⌊x / 360⌋ = 360 * Int.fract (x / 360) := by
    unfold Int.fract; ring
  rw [he]
  constructor
  · have := Int.fract_nonneg (x / 360); positivity
  · nlinarith [Int.fract_lt_one (x / 360), Int.fract_nonneg (x / 360)]

lemma haversine_zero : haversineDistance 0 0 0 0 = 0 := by
  unfold haversineDistance radiansOf
  norm_num

lemma processState_stateAtRef : processState 0 0 10 stateAtRef = some acAtRef := by
  unfold processState stateAtRef
  simp only
  rw [if_pos]
  · rfl
  · show haversineDistance 0 0 (0 : ℝ) 0 ≤ 10
    rw [haversine_zero]
    norm_num

lemma snapAtRef_eval :
    (updateAircraftPositions ⟨[]⟩ (Except.ok [stateAtRef]) 0 0 10).1.current_aircraft =
      [("abc123", acAtRef)] := by
  unfold updateAircraftPositions getAircraftInArea keyByIcao
  simp only [List.filterMap_cons, processState_stateAtRef, List.filterMap_nil]
  simp only [List.foldl_cons, List.foldl_nil]
  show dictInsert [] acAtRef.icao24 acAtRef = [("abc123", acAtRef)]
  have : acAtRef.icao24 = "abc123" := rfl
  rw [this]
  rfl

set_option maxRecDepth 10000 in
lemma detectVoice_chunkFull : detectVoiceActivity VAD_THRESHOLD chunkFull = true := by
  unfold detectVoiceActivity VAD_THRESHOLD chunkFull
  have hne : (List.replicate 1024 (32767 : ℤ)).isEmpty = false := by decide
  rw [hne]
  simp only [Bool.false_eq_true, if_false, decide_eq_true_eq]
  have hmap : (List.replicate 1024 (32767 : ℤ)).map (fun x => ((x : ℝ)) ^ 2) =
      List.replicate 1024 ((32767 : ℝ) ^ 2) := by
    simp [List.map_replicate]
  rw [hmap, List.sum_replicate]
  have hlen : (List.replicate 1024 (32767 : ℤ)).length = 1024 := by simp
  rw [hlen]
  have harg : ((1024 : ℕ) • ((32767 : ℝ) ^ 2)) / (1024 : ℕ) = (32767 : ℝ) ^ 2 := by
    push_cast
    ring_nf
  rw [harg, Real.sqrt_sq (by norm_num : (0 : ℝ) ≤ 32767)]
  norm_num

set_option maxRecDepth 10000 in
lemma recordSingleVoice (thr sd : ℝ) (sr : ℕ) (chunk : Chunk)
    (hv : detectVoiceActivity thr chunk = true) :
    recordWithVad thr sd sr [chunk] = [[chunk]] := by
  simp [recordWithVad, vadStep, hv]

/-! ## Claim C1 — transcription pool callback discipline -/

/-- C1 counterexample: a job whose model invocation returns `None` (an
error value) yields zero callback invocations, not one — the worker
loop guards the callback behind
`if result and result.get('text', '').strip():`. -/
theorem C1_counterexample :
    runWorker (fun _ => none) true ["a.wav"] = [0] ∧ (0 : ℕ) ≠ 1 := by
  decide

/-- C1 (amended): for every job submitted to the transcription worker
pool, the pool invokes that job's callback at most once — exactly once
when the model invocation returns a payload whose stripped text is
non-empty and a callback was supplied, and zero times when it returns
`None`, empty or whitespace-only text, or no callback was supplied. -/
theorem C1_theorem : ∀ (transcribe : String → Option TranscriptionPayload) (hb : Bool)
    (jobs : List String),
    runWorker transcribe hb jobs =
      jobs.map (fun j => if callbackFires (transcribe j) hb then 1 else 0) ∧
    ∀ n ∈ runWorker transcribe hb jobs, n ≤ 1 := by
  intro transcribe hb jobs
  have he : runWorker transcribe hb jobs =
      jobs.map (fun j => if callbackFires (transcribe j) hb then 1 else 0) := by
    unfold runWorker
    exact List.map_congr_left (fun j _ => callbackCount_fires (transcribe j) hb)
  refine ⟨he, ?_⟩
  intro n hn
  rw [he] at hn
  obtain ⟨j, _, hj⟩ := List.mem_map.mp hn
  by_cases h : callbackFires (transcribe j) hb = true
  · rw [if_pos h] at hj; omega
  · rw [if_neg h] at hj; omega

/-- C1 witness: a successfully transcribed job with non-empty text
yields exactly one callback invocation. -/
theorem C1_witness :
    runWorker (fun _ => some ⟨"roger"⟩) true ["a.wav"] = [1] ∧ (1 : ℕ) ≤ 1 := by
  constructor
  · rw [(C1_theorem (fun _ => some ⟨"roger"⟩) true ["a.wav"]).1]
    decide
  · exact (C1_theorem (fun _ => some ⟨"roger"⟩) true ["a.wav"]).2 1 (by decide)

/-! ## Claim C2 — contacts on a failed surveillance poll -/

/-- C2 counterexample: after a poll whose HTTP request raised a request
exception, `current_aircraft` is not equal to its previous value — the
`except` branch of `get_aircraft_in_area` returns `[]`, and
`update_aircraft_positions` rebuilds the snapshot from it, emptying a
previously non-empty snapshot. -/
theorem C2_counterexample :
    (updateAircraftPositions trackerPrev (Except.error ⟨"connection refused"⟩)
        44.8851 (-93.2144) 50).1.current_aircraft ≠ trackerPrev.current_aircraft := by
  intro h
  rw [show (updateAircraftPositions trackerPrev (Except.error ⟨"connection refused"⟩)
      44.8851 (-93.2144) 50).1.current_aircraft = [] from rfl] at h
  rw [show trackerPrev.current_aircraft = [("a1b2c3", acPrev)] from rfl] at h
  cases h

/-- C2 (amended): if a surveillance poll fails with a network/HTTP
error, `get_aircraft_in_area` returns the empty list and
`update_aircraft_positions` replaces `current_aircraft` with the empty
map — the previous contacts set is discarded, not retained (the error
is logged and the fetch is retried on the next tick). -/
theorem C2_theorem : ∀ (tracker : ADSBTracker) (err : RequestError) (lat lon radius : ℝ),
    updateAircraftPositions tracker (Except.error err) lat lon radius =
      ({ current_aircraft := [] }, []) := by
  intro tracker err lat lon radius
  rfl

/-! ## Claim C3 — minimum transmission length -/

set_option maxRecDepth 10000 in
/-- C3: the failing input evaluated on the code.  A stream delivering a
single 1024-sample voice chunk (64 ms at 16 kHz) followed by EOF makes
`record_with_vad` write that segment via its final-flush path — no
branch of the recorder consults `MIN_TRANSMISSION_LENGTH`, so a WAV of
duration 0.064 s < 1.0 s is emitted and handed to the callback, against
both the claim and the config comment "Minimum seconds to save a
transmission". -/
theorem C3_theorem :
    recordWithVad VAD_THRESHOLD SILENCE_DURATION SAMPLE_RATE [chunkFull] = [[chunkFull]] ∧
    segmentDuration SAMPLE_RATE [chunkFull] < MIN_TRANSMISSION_LENGTH := by
  constructor
  · exact recordSingleVoice _ _ _ _ detectVoice_chunkFull
  · unfold segmentDuration MIN_TRANSMISSION_LENGTH SAMPLE_RATE chunkFull
    have h : ([List.replicate 1024 (32767 : ℤ)].map List.length).sum = 1024 := by
      simp
    rw [h]
    norm_num

/-! ## Claim C4 — surveillance snapshot invariants -/

/-- C4: after every successful surveillance update the snapshot is a map
keyed by icao24 with unique keys; every contact in it was built by
`processState` from a state vector with both latitude and longitude
present; and every contact's haversine distance (Earth radius
3440.065 NM) from the reference point is at most the search radius. -/
theorem C4_theorem : ∀ (tracker : ADSBTracker) (states : List StateVector)
    (lat lon radius : ℝ),
    (((updateAircraftPositions tracker (Except.ok states) lat lon radius).1.current_aircraft.map
        Prod.fst).Nodup) ∧
    ∀ k ac,
      (k, ac) ∈ (updateAircraftPositions tracker (Except.ok states) lat lon radius).1.current_aircraft →
      k = ac.icao24 ∧
      (∃ s ∈ states, s.latitude.isSome ∧ s.longitude.isSome ∧
        processState lat lon radius s = some ac) ∧
      haversineDistance lat lon ac.latitude ac.longitude ≤ radius := by
  intro tracker states lat lon radius
  have hsnap : (updateAircraftPositions tracker (Except.ok states) lat lon radius).1.current_aircraft =
      keyByIcao (states.filterMap (processState lat lon radius)) := rfl
  rw [hsnap]
  obtain ⟨hnodup, hmem⟩ := keyByIcao_spec (states.filterMap (processState lat lon radius))
  refine ⟨hnodup, ?_⟩
  intro k ac hk
  obtain ⟨hkey, hval⟩ := hmem (k, ac) hk
  obtain ⟨s, hs, hps⟩ := List.mem_filterMap.mp hval
  obtain ⟨hla, hlo, hdist, _⟩ := processState_some lat lon radius s ac hps
  exact ⟨hkey, ⟨s, hs, hla, hlo, hps⟩, hdist⟩

/-- C4 witness: a state vector at the reference point itself passes the
filter; the resulting singleton snapshot satisfies all three invariants
at radius 10 NM. -/
theorem C4_witness :
    ("abc123", acAtRef) ∈
      (updateAircraftPositions ⟨[]⟩ (Except.ok [stateAtRef]) 0 0 10).1.current_aircraft ∧
    "abc123" = acAtRef.icao24 ∧
    haversineDistance 0 0 acAtRef.latitude acAtRef.longitude ≤ 10 := by
  have hm : ("abc123", acAtRef) ∈
      (updateAircraftPositions ⟨[]⟩ (Except.ok [stateAtRef]) 0 0 10).1.current_aircraft := by
    rw [snapAtRef_eval]
    exact List.mem_singleton.mpr rfl
  have h := (C4_theorem ⟨[]⟩ [stateAtRef] 0 0 10).2 "abc123" acAtRef hm
  exact ⟨hm, h.1, h.2.2⟩

/-! ## Claim C5 — JSON repair trim rule -/

/-- C5 counterexample: on the truncated response
`\x7b"corr":[\x7b"a":1\x7d,\x7b"b":2` the code does not trim just after the last
plausible element terminator (the `\x7d,` ending at index 17, as the claim
mandates) but at the minimum candidate, index 16 (just after the bare
`\x7d`), so the code's output and the claim's output differ. -/
theorem C5_counterexample :
    attemptJsonRepair exC5 = "\x7b\"corr\":[\x7b\"a\":1\x7d]\x7d\x7d" ∧
    claimRepair exC5 = "\x7b\"corr\":[\x7b\"a\":1\x7d,]\x7d\x7d" ∧
    attemptJsonRepair exC5 ≠ claimRepair exC5 := by
  refine ⟨by decide, by decide, by decide⟩

/-- C5 (amended): when the repair routine detects positive unmatched
brace/bracket counts, it trims the rstripped text to the MINIMUM over
the patterns `"\x7d`, `']` (apostrophe-bracket, not quote-bracket), `\x7d,`,
`],`, `\x7d` of (last-occurrence index + pattern length), considering only
patterns whose last occurrence starts at a positive index and trimming
only when that minimum lies strictly inside the text; then it appends
`]` × open_brackets followed by `\x7d` × open_braces, both counts taken
from the whole rstripped text before trimming; the result is re-parsed
by the caller. -/
theorem C5_theorem : ∀ text : String, attemptJsonRepair text = repairAmended text := by
  intro text
  unfold attemptJsonRepair repairAmended
  simp only [repairPoint_eq]

/-! ## Claim C6 — repair on already-valid responses -/

/-- C6 counterexample: `"\x7b\x7d "` is complete, valid JSON (with balanced
brace and bracket counts; `json.loads` accepts trailing whitespace),
yet the repair routine returns `"\x7b\x7d"` — the unconditional
`text.rstrip()` makes repair differ from the identity. -/
theorem C6_counterexample :
    attemptJsonRepair "\x7b\x7d " = "\x7b\x7d" ∧ "\x7b\x7d" ≠ "\x7b\x7d " := by
  refine ⟨by decide, by decide⟩

/-- C6 (amended): on every string whose brace count and bracket count
are balanced or over-closed — which covers every valid JSON response
without unbalanced brackets inside string literals — repair returns the
rstrip of the string, so it is the identity exactly on such responses
with no trailing whitespace, and it is idempotent on all of them. -/
theorem C6_theorem : ∀ t : String,
    (pyCount t '\x7b' : ℤ) ≤ (pyCount t '\x7d' : ℤ) →
    (pyCount t '[' : ℤ) ≤ (pyCount t ']' : ℤ) →
    attemptJsonRepair t = pyRstrip t ∧
    attemptJsonRepair (attemptJsonRepair t) = attemptJsonRepair t := by
  intro t h1 h2
  have hbal : ∀ u : String,
      (pyCount u '\x7b' : ℤ) ≤ (pyCount u '\x7d' : ℤ) →
      (pyCount u '[' : ℤ) ≤ (pyCount u ']' : ℤ) →
      attemptJsonRepair u = pyRstrip u := by
    intro u hu1 hu2
    simp only [attemptJsonRepair]
    rw [pyRstrip_count u '\x7b' (by decide), pyRstrip_count u '\x7d' (by decide),
      pyRstrip_count u '[' (by decide), pyRstrip_count u ']' (by decide)]
    rw [if_neg]
    push_neg
    omega
  have ha := hbal t h1 h2
  refine ⟨ha, ?_⟩
  rw [ha]
  have hb := hbal (pyRstrip t)
    (by rw [pyRstrip_count t '\x7b' (by decide), pyRstrip_count t '\x7d' (by decide)]; exact h1)
    (by rw [pyRstrip_count t '[' (by decide), pyRstrip_count t ']' (by decide)]; exact h2)
  rw [hb, pyRstrip_idem]

/-- C6 witness: a balanced valid response with a trailing newline is
mapped to its rstrip, and repairing again changes nothing. -/
theorem C6_witness :
    attemptJsonRepair "\x7b\"a\":[1]\x7d\n" = pyRstrip "\x7b\"a\":[1]\x7d\n" ∧
    attemptJsonRepair (attemptJsonRepair "\x7b\"a\":[1]\x7d\n") =
      attemptJsonRepair "\x7b\"a\":[1]\x7d\n" :=
  C6_theorem "\x7b\"a\":[1]\x7d\n" (by decide) (by decide)

/-! ## Claim C7 — empty transmission batch -/

/-- C7: for every decoder, transport outcome, token limit and contacts
argument, `correlate` on an empty transmission batch returns exactly
`\x7bcorrelations: [], alerts: [], summary: "No transmissions"\x7d` and
performs no HTTP call to the generation endpoint. -/
theorem C7_theorem : ∀ (loads : String → Option JObj) (http : HttpOutcome)
    (maxResponseTokens : ℤ) (adsbData : List ADSBContact),
    correlate loads http maxResponseTokens adsbData [] =
      ([("correlations", JValue.jarr []), ("alerts", JValue.jarr []),
        ("summary", JValue.jstr "No transmissions")], false) := by
  intro loads http maxResponseTokens adsbData
  rfl

/-! ## Claim C8 — response parsing -/

/-- C8 counterexample: on the response `"\x7b\x7d"` (whose decode is the
empty object, as `json.loads` returns), the summary default supplied
for the missing key is the non-empty string "Analysis complete", not an
empty default as the claim states. -/
theorem C8_counterexample :
    lookupJ (parseResponse loadsEmptyObj "\x7b\x7d") "summary" =
      some (JValue.jstr "Analysis complete") ∧
    JValue.jstr "Analysis complete" ≠ JValue.jstr "" := by
  constructor
  · rfl
  · intro h
    injection h with h2
    exact absurd h2 (by decide)

/-- C8 (amended): response parsing slices the substring from the first
`\x7b` to the last `\x7d` and attempts JSON decoding; on success it ensures
the result has the keys `correlations` (default `[]`), `alerts`
(default `[]`) and `summary` (default the string "Analysis complete")
for any key that is missing; in every other case — no such slice, or
decoding failure — it returns the error record `\x7berror, raw\x7d`, and it
never throws. -/
theorem C8_theorem : ∀ (loads : String → Option JObj) (t : String),
    parseResponse loads t = errorRecord t ∨
    ∃ s e fs, pyFindChar t '\x7b' = some s ∧ pyRfindChar t '\x7d' = some e ∧
      s < e + 1 ∧ loads (pySlice t s (e + 1)) = some fs ∧
      parseResponse loads t = withDefaults fs ∧
      lookupJ (parseResponse loads t) "correlations" =
        some ((lookupJ fs "correlations").getD (JValue.jarr [])) ∧
      lookupJ (parseResponse loads t) "alerts" =
        some ((lookupJ fs "alerts").getD (JValue.jarr [])) ∧
      lookupJ (parseResponse loads t) "summary" =
        some ((lookupJ fs "summary").getD (JValue.jstr "Analysis complete")) := by
  intro loads t
  unfold parseResponse
  cases hf : pyFindChar t '\x7b' with
  | none => left; rfl
  | some s =>
    cases hr : pyRfindChar t '\x7d' with
    | none => left; rfl
    | some e =>
      simp only
      by_cases hlt : s < e + 1
      · simp only [if_pos hlt]
        cases hl : loads (pySlice t s (e + 1)) with
        | none => left; rfl
        | some fs =>
          right
          exact ⟨s, e, fs, rfl, rfl, hlt, hl, rfl,
            (withDefaults_lookup fs).1, (withDefaults_lookup fs).2.1,
            (withDefaults_lookup fs).2.2⟩
      · simp only [if_neg hlt]
        exact Or.inl trivial

/-! ## Claim C9 — transmission_id range -/

/-- C9 counterexample: `correlate` returns the LLM's correlations
unvalidated — with a one-element batch and a well-formed response whose
single correlation carries `transmission_id` 7, the returned record
still carries 7, although 7 is not in `[0, 1)`. -/
theorem C9_counterexample :
    (correlate loadsOutOfRange (HttpOutcome.ok ⟨respOutOfRange, 0, 0⟩) 2048 [] [txSample]).1 =
      objOutOfRange ∧
    lookupJ objOutOfRange "correlations" =
      some (JValue.jarr [JValue.jobj [("transmission_id", JValue.jnum 7)]]) ∧
    ([txSample] : List ATCTransmission).length = 1 ∧
    ¬ ((7 : ℤ) < 1) := by
  refine ⟨rfl, rfl, rfl, by decide⟩

/-- C9 (amended): `correlate` itself does not validate
`transmission_id`; the range guarantee holds one level up, in
`run_llm_correlation`, which acts only on correlations whose
`transmission_id` is an integer in `[0, len(recent_transmissions))` —
every correlation it processes satisfies the claimed bounds. -/
theorem C9_theorem : ∀ (correlations : List JValue) (n : ℕ),
    ∀ p ∈ processedCorrelations correlations n, 0 ≤ p.2 ∧ p.2 < (n : ℤ) := by
  intro correlations n p hp
  unfold processedCorrelations at hp
  obtain ⟨c, _, he⟩ := List.mem_filterMap.mp hp
  cases ht : txIdOf c with
  | none =>
    simp only [ht] at he
    exact Option.noConfusion he
  | some v =>
    simp only [ht] at he
    split_ifs at he with h
    cases he
    exact h

/-- C9 witness: a correlation with `transmission_id` 0 against a batch
of one transmission is processed, and its id lies in `[0, 1)`. -/
theorem C9_witness : (0 : ℤ) ≤ 0 ∧ (0 : ℤ) < (1 : ℕ) := by
  have hm : (JValue.jobj [("transmission_id", JValue.jnum 0)], (0 : ℤ)) ∈
      processedCorrelations [JValue.jobj [("transmission_id", JValue.jnum 0)]] 1 := by
    show _ ∈ List.filterMap _ _
    rw [List.filterMap_cons]
    simp [txIdOf, lookupJ]
  exact C9_theorem [JValue.jobj [("transmission_id", JValue.jnum 0)]] 1 _ hm

/-! ## Claim C10 — distance and bearing invariants -/

/-- C10: for every aircraft and every reference point,
`Aircraft.calculate_distance_and_bearing` leaves the aircraft with a
non-negative `distance_from_airport` and a `bearing_from_airport` in
`[0, 360)`, and returns exactly that pair. -/
theorem C10_theorem : ∀ (ac : Aircraft) (refLat refLon : ℝ),
    0 ≤ (calculateDistanceAndBearing ac refLat refLon).2.1 ∧
    0 ≤ (calculateDistanceAndBearing ac refLat refLon).2.2 ∧
    (calculateDistanceAndBearing ac refLat refLon).2.2 < 360 ∧
    (calculateDistanceAndBearing ac refLat refLon).1.distance_from_airport =
      some (calculateDistanceAndBearing ac refLat refLon).2.1 ∧
    (calculateDistanceAndBearing ac refLat refLon).1.bearing_from_airport =
      some (calculateDistanceAndBearing ac refLat refLon).2.2 := by
  intro ac refLat refLon
  refine ⟨haversine_nonneg _ _ _ _, ?_, ?_, rfl, rfl⟩
  · exact (pyFmod_mem _).1
  · exact (pyFmod_mem _).2
